import Mathlib

/-!
Verification development for the fake Genesis fulfillment service
(`fake_genesis/views.py`).

The repository's visible source is the single FastAPI views module.  We give
a shallow embedding of its data model and request handlers:

* Python strings become `List Char` (sequences of Unicode code points);
* the strict JSON encoder `FixedJSONResponse.render`, i.e.
  `json.dumps(content, ensure_ascii=False, allow_nan=False, indent=None,
  cls=..., separators=(",", ":")).encode("utf-8")`, becomes an executable
  encoder on a JSON value tree, failing (`Except.error`) exactly where
  CPython's `json.dumps` with `allow_nan=False` raises;
* the service collaborators (`SensorDataService`, `GraphPlotService`,
  `InteractiveGraphService`, `GraphConvertService`, `UnitService` from
  `.services`) are not part of the visible source, so the handlers are
  parameterised over an abstract environment carrying those operations;
* the `async with` scoped acquisitions of the rendered image and the
  converted file are made observable through an event trace emitted by
  each handler, so that scoping discipline is a provable property.
-/

set_option autoImplicit false
set_option maxHeartbeats 1000000

namespace FakeGenesis

/-- Python strings, modelled as lists of Unicode code points. -/
abbrev PyStr := List Char

/-- Python `sep.join(parts)`, as used by `json.dumps` through
`separators=(",", ":")` and by `urllib.parse.urlencode`. -/
def pyJoin (sep : PyStr) : List PyStr → PyStr
  | [] => []
  | [x] => x
  | x :: y :: xs => x ++ sep ++ pyJoin sep (y :: xs)

/-- Python float values as the JSON layer observes them: either finite,
carrying the decimal text `repr` would print, or one of the three
non-finite values that `allow_nan=False` rejects. -/
inductive PyFloat where
  | finite (text : PyStr)
  | nan
  | inf
  | ninf
deriving DecidableEq

mutual
/-- JSON-serialisable Python values: the payload trees handed to
`FixedJSONResponse`. -/
inductive JValue where
  | null
  | bool (b : Bool)
  | int (n : Int)
  | float (f : PyFloat)
  | str (s : PyStr)
  | arr (items : JArr)
  | obj (fields : JObj)
/-- A Python list of JSON values. -/
inductive JArr where
  | nil
  | cons (hd : JValue) (tl : JArr)
/-- A Python dict with string keys, in insertion order. -/
inductive JObj where
  | nil
  | cons (key : PyStr) (val : JValue) (tl : JObj)
end

deriving instance DecidableEq for JValue

/-- Lowercase hexadecimal digit, as in CPython's `'\u%04x'` escapes; the
callers only pass values below 16. -/
def hexDigitLower (n : Nat) : Char :=
  Nat.digitChar n

/-- Uppercase hexadecimal digit, as in `urllib.parse.quote` percent escapes. -/
def hexDigitUpper (n : Nat) : Char :=
  "0123456789ABCDEF".data.getD n '0'

/-- Four lowercase hex digits of a code unit, for `\uXXXX` escapes. -/
def hex4 (n : Nat) : PyStr :=
  [hexDigitLower (n / 4096 % 16), hexDigitLower (n / 256 % 16),
   hexDigitLower (n / 16 % 16), hexDigitLower (n % 16)]

/-- UTF-8 encoding of one code point, byte values as naturals. -/
def utf8EncodeChar (c : Char) : List Nat :=
  let n := c.toNat
  if n < 128 then [n]
  else if n < 2048 then [192 + n / 64, 128 + n % 64]
  else if n < 65536 then [224 + n / 4096, 128 + n / 64 % 64, 128 + n % 64]
  else [240 + n / 262144, 128 + n / 4096 % 64, 128 + n / 64 % 64, 128 + n % 64]

/-- UTF-8 encoding of a Python string (`str.encode("utf-8")`). -/
def utf8Encode (s : PyStr) : List Nat :=
  (s.map utf8EncodeChar).flatten

/-- CPython's JSON escaping of one character.  With `ensure_ascii = false`
only `"`, `\` and control characters are escaped and everything else is
emitted literally; with `ensure_ascii = true` every code point at or above
128 is additionally `\uXXXX`-escaped (using a surrogate pair beyond the
basic multilingual plane). -/
def jsonEscapeChar (ensure_ascii : Bool) (c : Char) : PyStr :=
  if c = '"' then ['\\', '"']
  else if c = '\\' then ['\\', '\\']
  else if c = '\x08' then ['\\', 'b']
  else if c = '\x09' then ['\\', 't']
  else if c = '\x0a' then ['\\', 'n']
  else if c = '\x0c' then ['\\', 'f']
  else if c = '\x0d' then ['\\', 'r']
  else if c.toNat < 32 then '\\' :: 'u' :: hex4 c.toNat
  else if ensure_ascii && 128 ≤ c.toNat then
    if c.toNat < 65536 then '\\' :: 'u' :: hex4 c.toNat
    else
      let v := c.toNat - 65536
      ('\\' :: 'u' :: hex4 (55296 + v / 1024)) ++ ('\\' :: 'u' :: hex4 (56320 + v % 1024))
  else [c]

/-- CPython's JSON string quoting: surrounding quotes, characters escaped
per `jsonEscapeChar`. -/
def pyJsonQuote (ensure_ascii : Bool) (s : PyStr) : PyStr :=
  '"' :: (s.map (jsonEscapeChar ensure_ascii)).flatten ++ ['"']

/-- Python `str(i)` for an integer. -/
def intStr (i : Int) : PyStr :=
  (Int.repr i).data

/-- The failure `json.dumps` raises under `allow_nan=False` when a
non-finite float reaches the encoder (`ValueError: Out of range float
values are not allowed`); the specification calls it `SerializationError`. -/
inductive SerializationError where
  | outOfRangeFloat
deriving DecidableEq

mutual
/-- The text produced by `json.dumps(v, ensure_ascii=False, allow_nan=False,
indent=None, separators=(",", ":"))`: compact separators, insertion-order
dict iteration, literal non-ASCII, error on any non-finite float. -/
def encodeVal : JValue → Except SerializationError PyStr
  | .null => .ok "null".data
  | .bool true => .ok "true".data
  | .bool false => .ok "false".data
  | .int n => .ok (intStr n)
  | .float (.finite r) => .ok r
  | .float .nan => .error .outOfRangeFloat
  | .float .inf => .error .outOfRangeFloat
  | .float .ninf => .error .outOfRangeFloat
  | .str s => .ok (pyJsonQuote false s)
  | .arr items => do
      let parts ← encodeArr items
      .ok ('[' :: pyJoin [','] parts ++ [']'])
  | .obj fields => do
      let parts ← encodeObj fields
      .ok ('\x7b' :: pyJoin [','] parts ++ ['\x7d'])
/-- Encoded elements of a list, in order. -/
def encodeArr : JArr → Except SerializationError (List PyStr)
  | .nil => .ok []
  | .cons v tl => do
      let s ← encodeVal v
      let rest ← encodeArr tl
      .ok (s :: rest)
/-- Encoded `"key":value` entries of a dict, in insertion order. -/
def encodeObj : JObj → Except SerializationError (List PyStr)
  | .nil => .ok []
  | .cons k v tl => do
      let s ← encodeVal v
      let rest ← encodeObj tl
      .ok ((pyJsonQuote false k ++ [':'] ++ s) :: rest)
end

/-- The `json.dumps` call inside `FixedJSONResponse.render`, before the
final `.encode("utf-8")`. -/
def json_dumps (v : JValue) : Except SerializationError PyStr :=
  encodeVal v

namespace FixedJSONResponse

/-- `FixedJSONResponse.render`: strict JSON serialisation to UTF-8 bytes.
An error means `json.dumps` raised before any bytes were produced. -/
def render (content : JValue) : Except SerializationError (List Nat) :=
  (json_dumps content).map utf8Encode

end FixedJSONResponse

mutual
/-- Whether a payload contains a NaN or infinite float anywhere. -/
def containsNonFinite : JValue → Bool
  | .float .nan => true
  | .float .inf => true
  | .float .ninf => true
  | .arr items => containsNonFiniteArr items
  | .obj fields => containsNonFiniteObj fields
  | _ => false
/-- Whether any element of a list contains a non-finite float. -/
def containsNonFiniteArr : JArr → Bool
  | .nil => false
  | .cons v tl => containsNonFinite v || containsNonFiniteArr tl
/-- Whether any value of a dict contains a non-finite float. -/
def containsNonFiniteObj : JObj → Bool
  | .nil => false
  | .cons _ v tl => containsNonFinite v || containsNonFiniteObj tl
end

/-- Field lookup in a dict, first match in insertion order. -/
def JObj.lookup : JObj → PyStr → Option JValue
  | .nil, _ => none
  | .cons k v tl, key => if k = key then some v else JObj.lookup tl key

/-- Field lookup on a JSON value (none on non-objects). -/
def JValue.lookupField : JValue → PyStr → Option JValue
  | .obj fields, key => fields.lookup key
  | _, _ => none

/-- The keys of a dict, in insertion order. -/
def JObj.keys : JObj → List PyStr
  | .nil => []
  | .cons k _ tl => k :: JObj.keys tl

/-! ## Domain model (section 3 of the specification) -/

/-- Timestamps; their structure is irrelevant to the handlers. -/
abbrev Instant := Int

/-- A validated `(start, end)` interval from `time_range_parameters()`. -/
abbrev TimeRange := Instant × Instant

/-- Sensor metadata as stored by the data store. -/
structure SensorMetadata where
  sensor_id : Int
  sensor_name : PyStr
  sensor_type : PyStr
  location : PyStr
  unit_id : Int
deriving DecidableEq

/-- Unit metadata as stored by the unit store. -/
structure UnitMetadata where
  unit_id : Int
  name : PyStr
  symbol : PyStr
deriving DecidableEq

/-- One time-series reading; a missing reading is an explicit null. -/
structure SensorDataPoint where
  timestamp : Instant
  value : Option PyFloat
deriving DecidableEq

/-- An opaque scoped raster artifact produced by the plot renderer. -/
structure RenderedImage where
  token : Nat
deriving DecidableEq

/-- An opaque internal figure handle used only by the format converter. -/
structure Figure where
  token : Nat
deriving DecidableEq

/-- A named byte stream produced by the format converter; `name` is the
stream's `name` attribute when it has one (`getattr(fig_file, 'name', ...)`). -/
structure ConvertedFile where
  name : Option PyStr
  content : List Nat
deriving DecidableEq

/-- Exceptions a handler can raise: a deliberate FastAPI `HTTPException`
with a status code and detail message, or an unhandled Python
`AttributeError` (which the transport surfaces as a server error, not a
client error). -/
inductive PyError where
  | httpException (status : Nat) (detail : PyStr)
  | attributeError
deriving DecidableEq

/-- Modelled from the spec: the service collaborators imported from
`.services` (`SensorDataService.get_sensor_metadata` / `get_sensor_data`,
`GraphPlotService.plot_from_sensor_data` / `image_to_data_uri`,
`InteractiveGraphService.plot_from_sensor_data_json` /
`figure_from_sensor_data`, `GraphConvertService.convert`,
`UnitService.get_unit_metadata`) are not in the visible source.  Per the
spec they are external collaborators accessed only through their
contracts, so the handlers are parameterised over this environment:
retrieval yields metadata or nothing for an unknown id (the views
module's own `if sensor_metadata is None` checks show the store returns
nothing rather than raising); the static renderer yields an image or
nothing; the converter yields a file stream or nothing (nothing for an
unsupported format); converting an image to a data URI runs inside the
image's scope and, like any awaited Python call, may raise. -/
structure Env where
  get_sensor_metadata : Int → Option SensorMetadata
  get_sensor_data : Int → TimeRange → List SensorDataPoint
  plot_from_sensor_data : Option SensorMetadata → List SensorDataPoint → Option RenderedImage
  image_to_data_uri : RenderedImage → Except PyError PyStr
  plot_from_sensor_data_json : Option SensorMetadata → List SensorDataPoint → JValue
  figure_from_sensor_data : Option SensorMetadata → List SensorDataPoint → Figure
  convert : Figure → PyStr → PyStr → Bool → Option ConvertedFile
  get_unit_metadata : Int → Option UnitMetadata

/-! ## Resource-event traces

Each handler additionally reports the observable resource events of its
execution, in order: acquisition and release of the scoped plot image
(the enter and exit of `async with graph_plot.plot_from_sensor_data(...)`
when an image actually exists), each invocation of
`GraphConvertService.convert` with the `auto_close` argument passed, and
the return of a response. -/

/-- Observable resource events of one request. -/
inductive REvent where
  | acquireImage
  | releaseImage
  | convertCall (auto_close : Bool)
  | respond
deriving DecidableEq

/-- Scope discipline check for the image resource: scanning the trace with
a count of currently-open images, every release must match an earlier
acquisition, no image may still be open when a response is returned, and
none may be open at the end of the trace. -/
def imageScopeCheck : List REvent → Nat → Bool
  | [], n => n == 0
  | .acquireImage :: rest, n => imageScopeCheck rest (n + 1)
  | .releaseImage :: rest, n => n != 0 && imageScopeCheck rest (n - 1)
  | .respond :: rest, n => n == 0 && imageScopeCheck rest n
  | .convertCall _ :: rest, n => imageScopeCheck rest n

/-! ## URL encoding (`urllib.parse.urlencode`) -/

/-- Percent escape of one byte, uppercase hex as in `urllib.parse.quote`. -/
def percentByte (b : Nat) : PyStr :=
  ['%', hexDigitUpper (b / 16), hexDigitUpper (b % 16)]

/-- Python `urllib.parse.quote_plus` on one character: alphanumerics and
`_.-~` pass through, space becomes `+`, everything else is
percent-encoded bytewise. -/
def quotePlusChar (c : Char) : PyStr :=
  if c.isAlphanum || ['_', '.', '-', '~'].contains c then [c]
  else if c = ' ' then ['+']
  else ((utf8EncodeChar c).map percentByte).flatten

/-- Python `urllib.parse.quote_plus` on a string. -/
def quote_plus (s : PyStr) : PyStr :=
  (s.map quotePlusChar).flatten

/-- Python `urllib.parse.urlencode` over string key-value pairs. -/
def urlencode (params : List (PyStr × PyStr)) : PyStr :=
  pyJoin ['&'] (params.map fun p => quote_plus p.1 ++ ['='] ++ quote_plus p.2)

/-! ## The request handlers of `views.py` -/

/-- Response of `GET /genesis/data/sensor`. -/
structure SensorDataOut where
  metadata : Option SensorMetadata
  data : List SensorDataPoint
deriving DecidableEq

/-- Handler `sensor_data` (`GET /genesis/data/sensor`): fetch metadata and
point data and return both; the metadata is passed through unchecked. -/
def sensor_data (env : Env) (sensor_id : Int) (timerange : TimeRange) :
    Except PyError SensorDataOut :=
  .ok ⟨env.get_sensor_metadata sensor_id, env.get_sensor_data sensor_id timerange⟩

/-- The response dict built at the end of `data_report`, whose value is
handed to `FixedJSONResponse(response, json_encoder=JSONEncodeData)`. -/
def reportPayload (sensor_id : Int) (graph_data_uri : Option PyStr)
    (fig_interactive : JValue) : JValue :=
  .obj (.cons "interactive_report_route".data
          (.str ("https://example.com/report?".data ++
                 urlencode [("sensor_id".data, intStr sensor_id)]))
       (.cons "preview_image".data
          (match graph_data_uri with
           | some u => .str u
           | none => .null)
       (.cons "plot_interactive".data fig_interactive .nil)))

/-- Handler `data_report` (`GET /genesis/data/report`): fetch metadata and
points, render the preview image under `async with` (releasing it on every
exit of that region, whether the data-URI conversion succeeds or raises),
build the interactive figure and compose the report payload. -/
def data_report (env : Env) (sensor_id : Int) (timerange : TimeRange) :
    Except PyError JValue × List REvent :=
  let sensor_metadata := env.get_sensor_metadata sensor_id
  let sensor_point_data := env.get_sensor_data sensor_id timerange
  match env.plot_from_sensor_data sensor_metadata sensor_point_data with
  | none =>
      (.ok (reportPayload sensor_id none
              (env.plot_from_sensor_data_json sensor_metadata sensor_point_data)),
       [.respond])
  | some graph_image =>
      match env.image_to_data_uri graph_image with
      | .error e => (.error e, [.acquireImage, .releaseImage])
      | .ok graph_data_uri =>
          (.ok (reportPayload sensor_id (some graph_data_uri)
                  (env.plot_from_sensor_data_json sensor_metadata sensor_point_data)),
           [.acquireImage, .releaseImage, .respond])

/-- Handler `interactive_plot` (`GET /genesis/data/report/interactive`):
fetch with the same semantics as `data_report` and return only the
figure description. -/
def interactive_plot (env : Env) (sensor_id : Int) (timerange : TimeRange) :
    Except PyError JValue :=
  .ok (env.plot_from_sensor_data_json (env.get_sensor_metadata sensor_id)
        (env.get_sensor_data sensor_id timerange))

/-- Response object of a successful download: headers plus the streamed
file (`StreamingResponse(fig_file, headers=headers)`). -/
structure StreamingResponseOut where
  headers : List (PyStr × PyStr)
  body : ConvertedFile
deriving DecidableEq

/-- Handler `plot_download_pdf` (`GET /genesis/data/report/download/{format}`).
When the store has no metadata for the sensor, line 120's
`sensor_metadata.sensor_name` is an attribute access on `None` and raises
`AttributeError`.  Otherwise the figure is converted with
`auto_close=False`; a falsy conversion result raises
`HTTPException(400, "Failed to generate report.")`, and a file stream is
returned with a `Content-Disposition` header whose filename is
`json.dumps(getattr(fig_file, 'name', filename_gen + '.' + format))`. -/
def plot_download_pdf (env : Env) (format : PyStr) (sensor_id : Int)
    (timerange : TimeRange) : Except PyError StreamingResponseOut × List REvent :=
  match env.get_sensor_metadata sensor_id with
  | none => (.error .attributeError, [])
  | some sensor_metadata =>
    let sensor_point_data := env.get_sensor_data sensor_id timerange
    let filename_gen := "Report Sensor ".data ++ sensor_metadata.sensor_name
    let fig := env.figure_from_sensor_data (some sensor_metadata) sensor_point_data
    match env.convert fig format filename_gen false with
    | none =>
        (.error (.httpException 400 "Failed to generate report.".data),
         [.convertCall false])
    | some fig_file =>
        let fname := fig_file.name.getD (filename_gen ++ ".".data ++ format)
        (.ok ⟨[("Content-Disposition".data,
                "attachment; filename=".data ++ pyJsonQuote true fname)], fig_file⟩,
         [.convertCall false, .respond])

/-- Handler `get_sensor_metadata` (`GET /genesis/query/sensor`): stored
metadata, or `HTTPException(400, "Sensor of id %d does not exist")`. -/
def get_sensor_metadata (env : Env) (sensor_id : Int) :
    Except PyError SensorMetadata :=
  match env.get_sensor_metadata sensor_id with
  | none => .error (.httpException 400
      ("Sensor of id ".data ++ intStr sensor_id ++ " does not exist".data))
  | some sensor_metadata => .ok sensor_metadata

/-- Handler `get_unit_metadata` (`GET /genesis/query/unit`): stored unit
metadata, or `HTTPException(400, "Unit of id %d does not exist")`. -/
def get_unit_metadata (env : Env) (unit_id : Int) :
    Except PyError UnitMetadata :=
  match env.get_unit_metadata unit_id with
  | none => .error (.httpException 400
      ("Unit of id ".data ++ intStr unit_id ++ " does not exist".data))
  | some unit_metadata => .ok unit_metadata

/-! ## Whitespace and text helpers -/

/-- JSON-relevant whitespace characters. -/
def isWSChar (c : Char) : Bool :=
  c = ' ' || c = '\x09' || c = '\x0a' || c = '\x0d'

/-- A string is whitespace-free. -/
def noWS (s : PyStr) : Bool :=
  s.all fun c => !isWSChar c

mutual
/-- Every atom text of the payload (string values, dict keys, finite float
texts) is whitespace-free. -/
def wsFreeVal : JValue → Bool
  | .str s => noWS s
  | .float (.finite r) => noWS r
  | .arr items => wsFreeArr items
  | .obj fields => wsFreeObj fields
  | _ => true
/-- Elementwise whitespace-freeness of a list payload. -/
def wsFreeArr : JArr → Bool
  | .nil => true
  | .cons v tl => wsFreeVal v && wsFreeArr tl
/-- Whitespace-freeness of keys and values of a dict payload. -/
def wsFreeObj : JObj → Bool
  | .nil => true
  | .cons k v tl => noWS k && wsFreeVal v && wsFreeObj tl
end

/-- Witness that the strings of a list occur in the given order, each as a
contiguous block, inside a text. -/
inductive InOrder : List PyStr → PyStr → Prop
  | nil (s : PyStr) : InOrder [] s
  | cons (k : PyStr) (ks : List PyStr) (pre rest : PyStr) :
      InOrder ks rest → InOrder (k :: ks) (pre ++ k ++ rest)

/-! ## Concrete environments used by witnesses and counterexamples -/

/-- A sample sensor. -/
def mdAlpha : SensorMetadata :=
  ⟨1, "Alpha".data, "temperature".data, "lab".data, 2⟩

/-- A sample unit. -/
def unitKelvin : UnitMetadata :=
  ⟨2, "Kelvin".data, "K".data⟩

/-- A baseline environment: sensor 1 and unit 2 exist, the series is
empty, the static renderer produces no image and the converter no file. -/
def baseEnv : Env where
  get_sensor_metadata := fun i => if i = 1 then some mdAlpha else none
  get_sensor_data := fun _ _ => []
  plot_from_sensor_data := fun _ _ => none
  image_to_data_uri := fun _ => .ok []
  plot_from_sensor_data_json := fun _ _ => .null
  figure_from_sensor_data := fun _ _ => ⟨0⟩
  convert := fun _ _ _ _ => none
  get_unit_metadata := fun i => if i = 2 then some unitKelvin else none

/-- Like `baseEnv`, but conversion yields a stream that carries its own
`name` attribute. -/
def envNamedFile : Env :=
  { baseEnv with convert := fun _ _ _ _ => some ⟨some "data.bin".data, [1, 2, 3]⟩ }

/-- Like `baseEnv`, but conversion yields a stream without a `name`
attribute. -/
def envAnonFile : Env :=
  { baseEnv with convert := fun _ _ _ _ => some ⟨none, [9]⟩ }

/-- An environment whose stores know no sensor and no unit at all. -/
def emptyEnv : Env :=
  { baseEnv with
    get_sensor_metadata := fun _ => none
    get_unit_metadata := fun _ => none }

/-! ## Lemmas: the strict encoder fails on non-finite floats -/

mutual
/-- A payload containing a non-finite float makes `encodeVal` fail. -/
theorem encodeVal_error_of_nonfinite (v : JValue)
    (h : containsNonFinite v = true) :
    encodeVal v = .error .outOfRangeFloat := by
  cases v with
  | null => simp [containsNonFinite] at h
  | bool b => simp [containsNonFinite] at h
  | int n => simp [containsNonFinite] at h
  | float f =>
      cases f with
      | finite r => simp [containsNonFinite] at h
      | nan => rfl
      | inf => rfl
      | ninf => rfl
  | str s => simp [containsNonFinite] at h
  | arr items =>
      have harr := encodeArr_error_of_nonfinite items
        (by simpa [containsNonFinite] using h)
      simp [encodeVal, harr, Bind.bind, Except.bind]
  | obj fields =>
      have hobj := encodeObj_error_of_nonfinite fields
        (by simpa [containsNonFinite] using h)
      simp [encodeVal, hobj, Bind.bind, Except.bind]
/-- A list containing a non-finite float makes `encodeArr` fail. -/
theorem encodeArr_error_of_nonfinite (a : JArr)
    (h : containsNonFiniteArr a = true) :
    encodeArr a = .error .outOfRangeFloat := by
  cases a with
  | nil => simp [containsNonFiniteArr] at h
  | cons v tl =>
      cases hv : containsNonFinite v with
      | true =>
          have hev := encodeVal_error_of_nonfinite v hv
          simp [encodeArr, hev, Bind.bind, Except.bind]
      | false =>
          have htl : containsNonFiniteArr tl = true := by
            simpa [containsNonFiniteArr, hv] using h
          have h2 := encodeArr_error_of_nonfinite tl htl
          cases hev : encodeVal v with
          | error e => cases e; simp [encodeArr, hev, Bind.bind, Except.bind]
          | ok s => simp [encodeArr, hev, h2, Bind.bind, Except.bind]
/-- A dict containing a non-finite float makes `encodeObj` fail. -/
theorem encodeObj_error_of_nonfinite (o : JObj)
    (h : containsNonFiniteObj o = true) :
    encodeObj o = .error .outOfRangeFloat := by
  cases o with
  | nil => simp [containsNonFiniteObj] at h
  | cons k v tl =>
      cases hv : containsNonFinite v with
      | true =>
          have hev := encodeVal_error_of_nonfinite v hv
          simp [encodeObj, hev, Bind.bind, Except.bind]
      | false =>
          have htl : containsNonFiniteObj tl = true := by
            simpa [containsNonFiniteObj, hv] using h
          have h2 := encodeObj_error_of_nonfinite tl htl
          cases hev : encodeVal v with
          | error e => cases e; simp [encodeObj, hev, Bind.bind, Except.bind]
          | ok s => simp [encodeObj, hev, h2, Bind.bind, Except.bind]
end

/-- C1: for every response payload containing a NaN or infinite floating
value, the strict JSON encoder `FixedJSONResponse.render` fails with the
serialization error before producing any bytes (the error result carries
no byte output), never silently emitting the non-finite value as JSON. -/
theorem claim_C1_render_rejects_nonfinite (v : JValue)
    (h : containsNonFinite v = true) :
    FixedJSONResponse.render v = .error .outOfRangeFloat := by
  unfold FixedJSONResponse.render json_dumps
  rw [encodeVal_error_of_nonfinite v h]
  rfl

/-- Witness for C1 at a concrete payload holding a NaN. -/
theorem claim_C1_witness :
    containsNonFinite (.obj (.cons "value".data (.float .nan) .nil)) = true ∧
    FixedJSONResponse.render (.obj (.cons "value".data (.float .nan) .nil)) =
      .error .outOfRangeFloat :=
  ⟨by decide,
   claim_C1_render_rejects_nonfinite
     (.obj (.cons "value".data (.float .nan) .nil)) (by decide)⟩

/-- C2: in `data_report`, the scoped rendered-image resource is released
on every exit path of the acquiring region — when image generation
succeeds, and when the data-URI conversion inside the region fails —
before any response is returned: over every environment, the handler's
event trace keeps no image open at a respond event or at the end. -/
theorem claim_C2_image_scope_released (env : Env) (sensor_id : Int)
    (timerange : TimeRange) :
    imageScopeCheck (data_report env sensor_id timerange).2 0 = true := by
  simp only [data_report]
  split
  · rfl
  · split <;> rfl

/-! ## Lemmas: decimal digits survive `quote_plus` unchanged -/

/-- Hex digits below 16 are digit or lowercase letters, never whitespace. -/
theorem digitChar_not_ws (n : Nat) (h : n < 16) :
    isWSChar (Nat.digitChar n) = false := by
  interval_cases n <;> decide

/-- Digit characters below 10 satisfy `Char.isDigit`. -/
theorem digitChar_isDigit (n : Nat) (h : n < 10) :
    (Nat.digitChar n).isDigit = true := by
  interval_cases n <;> decide

/-- Every character `Nat.toDigitsCore 10` adds is a decimal digit. -/
theorem toDigitsCore_isDigit (fuel : Nat) :
    ∀ (n : Nat) (ds : List Char), (∀ c ∈ ds, c.isDigit = true) →
      ∀ c ∈ Nat.toDigitsCore 10 fuel n ds, c.isDigit = true := by
  induction fuel with
  | zero =>
      intro n ds hds c hc
      exact hds c hc
  | succ fuel ih =>
      intro n ds hds c hc
      have hd : (Nat.digitChar (n % 10)).isDigit = true :=
        digitChar_isDigit _ (Nat.mod_lt _ (by decide))
      simp only [Nat.toDigitsCore] at hc
      split at hc
      · rcases List.mem_cons.mp hc with rfl | hmem
        · exact hd
        · exact hds c hmem
      · refine ih _ _ ?_ c hc
        intro d hdm
        rcases List.mem_cons.mp hdm with rfl | hmem
        · exact hd
        · exact hds d hmem

/-- Every character of `Nat.repr` is a decimal digit. -/
theorem natRepr_isDigit (n : Nat) : ∀ c ∈ (Nat.repr n).data, c.isDigit = true := by
  intro c hc
  have hrepr : (Nat.repr n).data = Nat.toDigitsCore 10 (n + 1) n [] := rfl
  rw [hrepr] at hc
  exact toDigitsCore_isDigit (n + 1) n [] (by intro d hd; cases hd) c hc

/-- Every character of `str(i)` for an integer is a digit or a minus sign. -/
theorem intStr_chars (i : Int) : ∀ c ∈ intStr i, c.isDigit = true ∨ c = '-' := by
  intro c hc
  cases i with
  | ofNat m =>
      exact Or.inl (natRepr_isDigit m c hc)
  | negSucc m =>
      have hneg : intStr (Int.negSucc m) = '-' :: (Nat.repr (m + 1)).data := rfl
      rw [hneg] at hc
      rcases List.mem_cons.mp hc with rfl | hmem
      · exact Or.inr rfl
      · exact Or.inl (natRepr_isDigit (m + 1) c hmem)

/-- `quote_plus` passes digits and the minus sign through unchanged. -/
theorem quotePlusChar_eq_self (c : Char) (h : c.isDigit = true ∨ c = '-') :
    quotePlusChar c = [c] := by
  rcases h with h | rfl
  · have halnum : c.isAlphanum = true := by
      simp [Char.isAlphanum, h]
    simp [quotePlusChar, halnum]
  · decide

/-- Flattening a map that keeps every character is the identity. -/
theorem flatten_map_id (s : PyStr) (f : Char → PyStr)
    (h : ∀ c ∈ s, f c = [c]) : (s.map f).flatten = s := by
  induction s with
  | nil => rfl
  | cons x xs ih =>
      simp only [List.map_cons, List.flatten_cons, h x (by simp)]
      simp [ih fun c hc => h c (by simp [hc])]

/-- `quote_plus` leaves the decimal text of an integer unchanged. -/
theorem quote_plus_intStr (i : Int) : quote_plus (intStr i) = intStr i := by
  unfold quote_plus
  exact flatten_map_id _ _ fun c hc => quotePlusChar_eq_self c (intStr_chars i c hc)

/-- `urlencode({'sensor_id': i})` is the literal query string. -/
theorem urlencode_sensor_id (i : Int) :
    urlencode [("sensor_id".data, intStr i)] = "sensor_id=".data ++ intStr i := by
  simp only [urlencode, List.map_cons, List.map_nil, pyJoin, quote_plus_intStr]
  congr 1

/-! ## Claims C3 to C8 and C10 about the handlers -/

/-- C3: for every sensor whose series yields no renderable image (the
renderer returns nothing), `data_report` succeeds with
`preview_image = null` and the interactive figure description intact;
the missing image never becomes an error. -/
theorem claim_C3_missing_image_null_preview (env : Env) (sensor_id : Int)
    (timerange : TimeRange) (md : SensorMetadata)
    (hmd : env.get_sensor_metadata sensor_id = some md)
    (hplot : env.plot_from_sensor_data (some md)
      (env.get_sensor_data sensor_id timerange) = none) :
    (data_report env sensor_id timerange).1 =
      .ok (reportPayload sensor_id none
        (env.plot_from_sensor_data_json (some md)
          (env.get_sensor_data sensor_id timerange))) ∧
    (reportPayload sensor_id none
        (env.plot_from_sensor_data_json (some md)
          (env.get_sensor_data sensor_id timerange))).lookupField
      "preview_image".data = some .null ∧
    (reportPayload sensor_id none
        (env.plot_from_sensor_data_json (some md)
          (env.get_sensor_data sensor_id timerange))).lookupField
      "plot_interactive".data =
      some (env.plot_from_sensor_data_json (some md)
        (env.get_sensor_data sensor_id timerange)) := by
  refine ⟨?_, rfl, rfl⟩
  simp only [data_report, hmd, hplot]

/-- Witness for C3: in the baseline environment the renderer yields no
image for sensor 1 and the report succeeds with a null preview. -/
theorem claim_C3_witness :
    (data_report baseEnv 1 (0, 0)).1 = .ok (reportPayload 1 none .null) ∧
    (reportPayload 1 none JValue.null).lookupField "preview_image".data =
      some .null ∧
    (reportPayload 1 none JValue.null).lookupField "plot_interactive".data =
      some .null :=
  claim_C3_missing_image_null_preview baseEnv 1 (0, 0) mdAlpha rfl rfl

/-- C4: `plot_download_pdf` only ever invokes the format converter with
`auto_close = false`, and whenever the conversion yields no file it fails
with the client-visible `HTTPException 400` and returns no file content. -/
theorem claim_C4_download_autoclose_false_and_400 :
    (∀ (env : Env) (format : PyStr) (sensor_id : Int) (timerange : TimeRange)
       (b : Bool),
       REvent.convertCall b ∈ (plot_download_pdf env format sensor_id timerange).2 →
       b = false) ∧
    (∀ (env : Env) (format : PyStr) (sensor_id : Int) (timerange : TimeRange)
       (md : SensorMetadata),
       env.get_sensor_metadata sensor_id = some md →
       env.convert
         (env.figure_from_sensor_data (some md)
           (env.get_sensor_data sensor_id timerange))
         format ("Report Sensor ".data ++ md.sensor_name) false = none →
       (plot_download_pdf env format sensor_id timerange).1 =
         .error (.httpException 400 "Failed to generate report.".data)) := by
  constructor
  · intro env format sensor_id timerange b hmem
    simp only [plot_download_pdf] at hmem
    split at hmem
    · simp at hmem
    · split at hmem <;> simp_all
  · intro env format sensor_id timerange md hmd hconv
    simp only [plot_download_pdf, hmd, hconv]

/-- Witness for C4: in the baseline environment (where conversion yields
nothing) the converter is invoked with `auto_close = false` and the
download fails with the 400 client error. -/
theorem claim_C4_witness :
    (false = false) ∧
    (plot_download_pdf baseEnv "pdf".data 1 (0, 0)).1 =
      .error (.httpException 400 "Failed to generate report.".data) :=
  ⟨claim_C4_download_autoclose_false_and_400.1 baseEnv "pdf".data 1 (0, 0)
     false (by decide),
   claim_C4_download_autoclose_false_and_400.2 baseEnv "pdf".data 1 (0, 0)
     mdAlpha rfl rfl⟩

/-- C5, evaluation at the failing input: with a store that knows no
sensor, the download handler raises `AttributeError` (accessing
`sensor_metadata.sensor_name` on `None`), which surfaces as a server
error rather than the claimed `NotFound`-style client error; the report
and plain-data endpoints do not propagate any client error either, they
succeed with null metadata. -/
theorem claim_C5_code_eval :
    (plot_download_pdf emptyEnv "pdf".data 7 (0, 2)).1 = .error .attributeError ∧
    (plot_download_pdf emptyEnv "pdf".data 7 (0, 2)).2 = [] ∧
    (data_report emptyEnv 7 (0, 2)).1 = .ok (reportPayload 7 none .null) ∧
    sensor_data emptyEnv 7 (0, 2) = .ok ⟨none, []⟩ :=
  ⟨rfl, rfl, rfl, rfl⟩

/-- C6 as stated fails on the code: the successful report payload has no
`report_url` and no `interactive_figure` field (the code names them
`interactive_report_route` and `plot_interactive`). -/
theorem claim_C6_counterexample :
    (data_report baseEnv 1 (0, 0)).1 = .ok (reportPayload 1 none .null) ∧
    (reportPayload 1 none JValue.null).lookupField "report_url".data = none ∧
    (reportPayload 1 none JValue.null).lookupField "interactive_figure".data =
      none :=
  ⟨rfl, rfl, rfl⟩

/-- C6 amended: every successful report response is an object with exactly
the fields `interactive_report_route` (a URL string carrying the sensor id
as a query parameter), `preview_image` (null or a string) and
`plot_interactive` (the interactive figure description). -/
theorem claim_C6_amended_report_shape (env : Env) (sensor_id : Int)
    (timerange : TimeRange) (payload : JValue)
    (h : (data_report env sensor_id timerange).1 = .ok payload) :
    (∃ fields, payload = .obj fields ∧
       fields.keys = ["interactive_report_route".data, "preview_image".data,
                      "plot_interactive".data]) ∧
    payload.lookupField "interactive_report_route".data =
      some (.str ("https://example.com/report?sensor_id=".data ++
        intStr sensor_id)) ∧
    (payload.lookupField "preview_image".data = some .null ∨
     ∃ u, payload.lookupField "preview_image".data = some (.str u)) ∧
    payload.lookupField "plot_interactive".data =
      some (env.plot_from_sensor_data_json (env.get_sensor_metadata sensor_id)
        (env.get_sensor_data sensor_id timerange)) := by
  have hurl : ∀ (o : Option PyStr) (fig : JValue),
      (reportPayload sensor_id o fig).lookupField
        "interactive_report_route".data =
      some (.str ("https://example.com/report?sensor_id=".data ++
        intStr sensor_id)) := by
    intro o fig
    have hbase : (reportPayload sensor_id o fig).lookupField
        "interactive_report_route".data =
        some (.str ("https://example.com/report?".data ++
          urlencode [("sensor_id".data, intStr sensor_id)])) := rfl
    rw [hbase, urlencode_sensor_id, ← List.append_assoc]
    rfl
  simp only [data_report] at h
  split at h
  · rename_i hplot
    rw [Except.ok.injEq] at h
    subst h
    refine ⟨⟨_, rfl, rfl⟩, hurl none _, Or.inl rfl, rfl⟩
  · split at h
    · exact absurd h (by simp)
    · rename_i uri huri
      rw [Except.ok.injEq] at h
      subst h
      exact ⟨⟨_, rfl, rfl⟩, hurl (some _) _, Or.inr ⟨_, rfl⟩, rfl⟩

/-- Witness for the amended C6 at the baseline environment. -/
theorem claim_C6_amended_witness :
    (∃ fields, reportPayload 1 none JValue.null = .obj fields ∧
       fields.keys = ["interactive_report_route".data, "preview_image".data,
                      "plot_interactive".data]) ∧
    (reportPayload 1 none JValue.null).lookupField
      "interactive_report_route".data =
      some (.str ("https://example.com/report?sensor_id=".data ++ intStr 1)) ∧
    ((reportPayload 1 none JValue.null).lookupField "preview_image".data =
       some .null ∨
     ∃ u, (reportPayload 1 none JValue.null).lookupField "preview_image".data =
       some (.str u)) ∧
    (reportPayload 1 none JValue.null).lookupField "plot_interactive".data =
      some .null :=
  claim_C6_amended_report_shape baseEnv 1 (0, 0) (reportPayload 1 none .null) rfl

/-- C7 as stated fails on the code: when the converted stream carries its
own `name` attribute, the `Content-Disposition` filename is that stream
name, not a name derived from the sensor name and the format. -/
theorem claim_C7_counterexample :
    (plot_download_pdf envNamedFile "pdf".data 1 (0, 0)).1 =
      .ok ⟨[("Content-Disposition".data,
             "attachment; filename=\"data.bin\"".data)],
           ⟨some "data.bin".data, [1, 2, 3]⟩⟩ ∧
    "attachment; filename=\"data.bin\"".data ≠
      "attachment; filename=".data ++
        pyJsonQuote true "Report Sensor Alpha.pdf".data :=
  ⟨rfl, by decide⟩

/-- C7 amended: whenever conversion succeeds, the handler sets a
`Content-Disposition` attachment header before streaming the bytes, whose
filename is JSON-quoted and is the stream's own name when the stream has
one, the sensor-and-format derived name otherwise. -/
theorem claim_C7_amended_header (env : Env) (format : PyStr) (sensor_id : Int)
    (timerange : TimeRange) (md : SensorMetadata) (f : ConvertedFile)
    (hmd : env.get_sensor_metadata sensor_id = some md)
    (hconv : env.convert
      (env.figure_from_sensor_data (some md)
        (env.get_sensor_data sensor_id timerange))
      format ("Report Sensor ".data ++ md.sensor_name) false = some f) :
    (plot_download_pdf env format sensor_id timerange).1 =
      .ok ⟨[("Content-Disposition".data,
             "attachment; filename=".data ++
               pyJsonQuote true
                 (f.name.getD
                   ("Report Sensor ".data ++ md.sensor_name ++ ".".data ++
                     format)))],
           f⟩ := by
  simp only [plot_download_pdf, hmd, hconv]

/-- Witness for the amended C7 with a named converted stream. -/
theorem claim_C7_amended_witness :
    (plot_download_pdf envNamedFile "pdf".data 1 (0, 0)).1 =
      .ok ⟨[("Content-Disposition".data,
             "attachment; filename=".data ++
               pyJsonQuote true
                 ((some "data.bin".data).getD
                   ("Report Sensor ".data ++ mdAlpha.sensor_name ++ ".".data ++
                     "pdf".data)))],
           ⟨some "data.bin".data, [1, 2, 3]⟩⟩ :=
  claim_C7_amended_header envNamedFile "pdf".data 1 (0, 0) mdAlpha
    ⟨some "data.bin".data, [1, 2, 3]⟩ rfl rfl

/-- C8: the query endpoints return a 400 client error whose message
contains the requested id for an unknown sensor or unit, and return the
stored metadata unchanged for a known one. -/
theorem claim_C8_query_metadata_errors (env : Env) (qid : Int) :
    (env.get_sensor_metadata qid = none →
       get_sensor_metadata env qid = .error (.httpException 400
         ("Sensor of id ".data ++ intStr qid ++ " does not exist".data))) ∧
    (∀ m, env.get_sensor_metadata qid = some m →
       get_sensor_metadata env qid = .ok m) ∧
    (env.get_unit_metadata qid = none →
       get_unit_metadata env qid = .error (.httpException 400
         ("Unit of id ".data ++ intStr qid ++ " does not exist".data))) ∧
    (∀ u, env.get_unit_metadata qid = some u →
       get_unit_metadata env qid = .ok u) := by
  refine ⟨fun h => ?_, fun m h => ?_, fun h => ?_, fun u h => ?_⟩
  · simp only [get_sensor_metadata, h]
  · simp only [get_sensor_metadata, h]
  · simp only [get_unit_metadata, h]
  · simp only [get_unit_metadata, h]

/-- Witness for C8: unknown id 7 yields the descriptive 400 errors, known
ids return the stored records. -/
theorem claim_C8_witness :
    get_sensor_metadata emptyEnv 7 = .error (.httpException 400
      "Sensor of id 7 does not exist".data) ∧
    get_sensor_metadata baseEnv 1 = .ok mdAlpha ∧
    get_unit_metadata emptyEnv 7 = .error (.httpException 400
      "Unit of id 7 does not exist".data) ∧
    get_unit_metadata baseEnv 2 = .ok unitKelvin :=
  ⟨(claim_C8_query_metadata_errors emptyEnv 7).1 rfl,
   (claim_C8_query_metadata_errors baseEnv 1).2.1 mdAlpha rfl,
   (claim_C8_query_metadata_errors emptyEnv 7).2.2.1 rfl,
   (claim_C8_query_metadata_errors baseEnv 2).2.2.2 unitKelvin rfl⟩

/-- C10: on a successful download the `Content-Disposition` filename is
the converted stream's own `name` attribute whenever it has one; the
sensor-derived default `Report Sensor {name}.{format}` is used only when
the stream exposes no name. -/
theorem claim_C10_filename_priority (env : Env) (format : PyStr)
    (sensor_id : Int) (timerange : TimeRange) (md : SensorMetadata)
    (f : ConvertedFile)
    (hmd : env.get_sensor_metadata sensor_id = some md)
    (hconv : env.convert
      (env.figure_from_sensor_data (some md)
        (env.get_sensor_data sensor_id timerange))
      format ("Report Sensor ".data ++ md.sensor_name) false = some f) :
    (∀ nm, f.name = some nm →
       (plot_download_pdf env format sensor_id timerange).1 =
         .ok ⟨[("Content-Disposition".data,
                "attachment; filename=".data ++ pyJsonQuote true nm)], f⟩) ∧
    (f.name = none →
       (plot_download_pdf env format sensor_id timerange).1 =
         .ok ⟨[("Content-Disposition".data,
                "attachment; filename=".data ++
                  pyJsonQuote true
                    ("Report Sensor ".data ++ md.sensor_name ++ ".".data ++
                      format))], f⟩) := by
  constructor
  · intro nm hname
    simp only [plot_download_pdf, hmd, hconv, hname, Option.getD_some]
  · intro hname
    simp only [plot_download_pdf, hmd, hconv, hname, Option.getD_none]

/-- Witness for C10: a named stream keeps its own name, an anonymous
stream falls back to the sensor-derived default. -/
theorem claim_C10_witness :
    (plot_download_pdf envNamedFile "pdf".data 1 (0, 0)).1 =
      .ok ⟨[("Content-Disposition".data,
             "attachment; filename=".data ++
               pyJsonQuote true "data.bin".data)],
           ⟨some "data.bin".data, [1, 2, 3]⟩⟩ ∧
    (plot_download_pdf envAnonFile "pdf".data 1 (0, 0)).1 =
      .ok ⟨[("Content-Disposition".data,
             "attachment; filename=".data ++
               pyJsonQuote true
                 ("Report Sensor ".data ++ mdAlpha.sensor_name ++ ".".data ++
                   "pdf".data))],
           ⟨none, [9]⟩⟩ :=
  ⟨(claim_C10_filename_priority envNamedFile "pdf".data 1 (0, 0) mdAlpha
      ⟨some "data.bin".data, [1, 2, 3]⟩ rfl rfl).1 "data.bin".data rfl,
   (claim_C10_filename_priority envAnonFile "pdf".data 1 (0, 0) mdAlpha
      ⟨none, [9]⟩ rfl rfl).2 rfl⟩

/-! ## Lemmas: the strict encoder adds no whitespace -/

/-- Decimal digits are not whitespace. -/
theorem isWSChar_false_of_isDigit (c : Char) (h : c.isDigit = true) :
    isWSChar c = false := by
  by_contra hw
  rw [Bool.not_eq_false] at hw
  simp only [isWSChar, Bool.or_eq_true, decide_eq_true_eq] at hw
  rcases hw with ((rfl | rfl) | rfl) | rfl <;> exact absurd h (by decide)

/-- The decimal text of an integer contains no whitespace. -/
theorem noWS_intStr (i : Int) : noWS (intStr i) = true := by
  unfold noWS
  rw [List.all_eq_true]
  intro c hc
  rcases intStr_chars i c hc with h | rfl
  · simp [isWSChar_false_of_isDigit c h]
  · decide

/-- Hexadecimal escape digits are not whitespace. -/
theorem hex4_not_ws (n : Nat) : ∀ d ∈ hex4 n, isWSChar d = false := by
  intro d hd
  simp only [hex4, hexDigitLower, List.mem_cons, List.not_mem_nil, or_false] at hd
  rcases hd with rfl | rfl | rfl | rfl <;>
    exact digitChar_not_ws _ (Nat.mod_lt _ (by decide))

/-- JSON escaping of a non-whitespace character produces no whitespace
(under `ensure_ascii = false`, as the strict encoder uses). -/
theorem jsonEscapeChar_not_ws (c : Char) (hc : isWSChar c = false) :
    ∀ d ∈ jsonEscapeChar false c, isWSChar d = false := by
  intro d hd
  unfold jsonEscapeChar at hd
  split_ifs at hd with h1 h2 h3 h4 h5 h6 h7 h8 h9 h10
  · rcases List.mem_cons.mp hd with rfl | hd'
    · decide
    · rcases List.mem_singleton.mp hd' with rfl; decide
  · rcases List.mem_cons.mp hd with rfl | hd'
    · decide
    · rcases List.mem_singleton.mp hd' with rfl; decide
  · rcases List.mem_cons.mp hd with rfl | hd'
    · decide
    · rcases List.mem_singleton.mp hd' with rfl; decide
  · rcases List.mem_cons.mp hd with rfl | hd'
    · decide
    · rcases List.mem_singleton.mp hd' with rfl; decide
  · rcases List.mem_cons.mp hd with rfl | hd'
    · decide
    · rcases List.mem_singleton.mp hd' with rfl; decide
  · rcases List.mem_cons.mp hd with rfl | hd'
    · decide
    · rcases List.mem_singleton.mp hd' with rfl; decide
  · rcases List.mem_cons.mp hd with rfl | hd'
    · decide
    · rcases List.mem_singleton.mp hd' with rfl; decide
  · rcases List.mem_cons.mp hd with rfl | hd'
    · decide
    · rcases List.mem_cons.mp hd' with rfl | hd''
      · decide
      · exact hex4_not_ws _ d hd''
  · exact absurd h9 (by simp)
  · exact absurd h9 (by simp)
  · rcases List.mem_singleton.mp hd with rfl
    exact hc

/-- Whitespace-freeness distributes over concatenation. -/
theorem noWS_append (a b : PyStr) : noWS (a ++ b) = (noWS a && noWS b) := by
  simp [noWS, List.all_append]

/-- Whitespace-freeness of a cons cell. -/
theorem noWS_cons (c : Char) (l : PyStr) :
    noWS (c :: l) = ((!isWSChar c) && noWS l) := rfl

/-- JSON quoting of a whitespace-free string is whitespace-free. -/
theorem noWS_pyJsonQuote (s : PyStr) (h : noWS s = true) :
    noWS (pyJsonQuote false s) = true := by
  unfold pyJsonQuote noWS
  rw [List.all_eq_true]
  intro d hd
  suffices hws : isWSChar d = false by simp [hws]
  rcases List.mem_cons.mp hd with rfl | hd'
  · decide
  rcases List.mem_append.mp hd' with hmem | hone
  · rcases List.mem_flatten.mp hmem with ⟨l, hl, hdl⟩
    rcases List.mem_map.mp hl with ⟨x, hx, rfl⟩
    have hx' : isWSChar x = false := by
      unfold noWS at h
      have := List.all_eq_true.mp h x hx
      simpa using this
    exact jsonEscapeChar_not_ws x hx' d hdl
  · rcases List.mem_singleton.mp hone with rfl
    decide

/-- Joining whitespace-free parts with a whitespace-free separator is
whitespace-free. -/
theorem noWS_pyJoin (sep : PyStr) (parts : List PyStr) (hsep : noWS sep = true)
    (hp : ∀ p ∈ parts, noWS p = true) : noWS (pyJoin sep parts) = true := by
  induction parts with
  | nil => rfl
  | cons x xs ih =>
      cases xs with
      | nil => simpa [pyJoin] using hp x (by simp)
      | cons y ys =>
          have hx := hp x (by simp)
          have hrest := ih fun p hmem => hp p (by simp [hmem])
          simp [pyJoin, noWS_append, hx, hsep, hrest]

mutual
/-- Encoding a payload whose atoms are whitespace-free yields a
whitespace-free text: the encoder itself inserts no whitespace. -/
theorem encodeVal_noWS (v : JValue) (hw : wsFreeVal v = true) :
    ∀ s, encodeVal v = .ok s → noWS s = true := by
  cases v with
  | null => intro s hs; cases hs; decide
  | bool b =>
      cases b with
      | true => intro s hs; cases hs; decide
      | false => intro s hs; cases hs; decide
  | int n => intro s hs; cases hs; exact noWS_intStr n
  | float f =>
      cases f with
      | finite r => intro s hs; cases hs; exact hw
      | nan => intro s hs; simp [encodeVal] at hs
      | inf => intro s hs; simp [encodeVal] at hs
      | ninf => intro s hs; simp [encodeVal] at hs
  | str t => intro s hs; cases hs; exact noWS_pyJsonQuote t hw
  | arr items =>
      intro s hs
      cases hp : encodeArr items with
      | error e => simp [encodeVal, hp, Bind.bind, Except.bind] at hs
      | ok parts =>
          have hseq : s = '[' :: pyJoin [','] parts ++ [']'] := by
            simp [encodeVal, hp, Bind.bind, Except.bind] at hs
            exact hs.symm
          subst hseq
          have hparts := encodeArr_noWS items hw parts hp
          have hjoin := noWS_pyJoin [','] parts (by decide) hparts
          show ((!isWSChar '[') && noWS (pyJoin [','] parts ++ [']'])) = true
          rw [noWS_append, hjoin]
          decide
  | obj fields =>
      intro s hs
      cases hp : encodeObj fields with
      | error e => simp [encodeVal, hp, Bind.bind, Except.bind] at hs
      | ok parts =>
          have hseq : s = '\x7b' :: pyJoin [','] parts ++ ['\x7d'] := by
            simp [encodeVal, hp, Bind.bind, Except.bind] at hs
            exact hs.symm
          subst hseq
          have hparts := encodeObj_noWS fields hw parts hp
          have hjoin := noWS_pyJoin [','] parts (by decide) hparts
          show ((!isWSChar '\x7b') && noWS (pyJoin [','] parts ++ ['\x7d'])) = true
          rw [noWS_append, hjoin]
          decide
/-- Elementwise whitespace-freeness of encoded list parts. -/
theorem encodeArr_noWS (a : JArr) (hw : wsFreeArr a = true) :
    ∀ parts, encodeArr a = .ok parts → ∀ p ∈ parts, noWS p = true := by
  cases a with
  | nil =>
      intro parts h p hp
      cases h
      exact absurd hp (List.not_mem_nil p)
  | cons v tl =>
      intro parts h p hp
      have hw1 : wsFreeVal v = true := by
        have := hw
        simp [wsFreeArr, Bool.and_eq_true] at this
        exact this.1
      have hw2 : wsFreeArr tl = true := by
        have := hw
        simp [wsFreeArr, Bool.and_eq_true] at this
        exact this.2
      cases hv : encodeVal v with
      | error e => simp [encodeArr, hv, Bind.bind, Except.bind] at h
      | ok s =>
          cases ht : encodeArr tl with
          | error e => simp [encodeArr, hv, ht, Bind.bind, Except.bind] at h
          | ok rest =>
              have hparts : parts = s :: rest := by
                simp [encodeArr, hv, ht, Bind.bind, Except.bind] at h
                exact h.symm
              subst hparts
              rcases List.mem_cons.mp hp with rfl | hmem
              · exact encodeVal_noWS v hw1 p hv
              · exact encodeArr_noWS tl hw2 rest ht p hmem
/-- Elementwise whitespace-freeness of encoded dict entries. -/
theorem encodeObj_noWS (o : JObj) (hw : wsFreeObj o = true) :
    ∀ parts, encodeObj o = .ok parts → ∀ p ∈ parts, noWS p = true := by
  cases o with
  | nil =>
      intro parts h p hp
      cases h
      exact absurd hp (List.not_mem_nil p)
  | cons k v tl =>
      intro parts h p hp
      have hwk : noWS k = true := by
        have := hw
        simp [wsFreeObj, Bool.and_eq_true] at this
        exact this.1.1
      have hw1 : wsFreeVal v = true := by
        have := hw
        simp [wsFreeObj, Bool.and_eq_true] at this
        exact this.1.2
      have hw2 : wsFreeObj tl = true := by
        have := hw
        simp [wsFreeObj, Bool.and_eq_true] at this
        exact this.2
      cases hv : encodeVal v with
      | error e => simp [encodeObj, hv, Bind.bind, Except.bind] at h
      | ok s =>
          cases ht : encodeObj tl with
          | error e => simp [encodeObj, hv, ht, Bind.bind, Except.bind] at h
          | ok rest =>
              have hparts : parts = (pyJsonQuote false k ++ ':' :: s) :: rest := by
                simp [encodeObj, hv, ht, Bind.bind, Except.bind] at h
                exact h.symm
              subst hparts
              rcases List.mem_cons.mp hp with rfl | hmem
              · have hq := noWS_pyJsonQuote k hwk
                have hs := encodeVal_noWS v hw1 s hv
                rw [noWS_append, hq, noWS_cons, hs]
                decide
              · exact encodeObj_noWS tl hw2 rest ht p hmem
end

/-! ## Lemmas: keys appear in insertion order in the encoded text -/

/-- An in-order occurrence survives prefixing arbitrary text. -/
theorem InOrder.prepend (g : PyStr) {ks : List PyStr} {s : PyStr}
    (h : InOrder ks s) : InOrder ks (g ++ s) := by
  cases h with
  | nil => exact .nil _
  | cons k ks pre rest h' =>
      have heq : g ++ (pre ++ k ++ rest) = (g ++ pre) ++ k ++ rest := by
        simp [List.append_assoc]
      rw [heq]
      exact .cons k ks (g ++ pre) rest h'

/-- An in-order occurrence survives appending arbitrary text. -/
theorem InOrder.extend (t : PyStr) {ks : List PyStr} {s : PyStr}
    (h : InOrder ks s) : InOrder ks (s ++ t) := by
  induction h with
  | nil => exact .nil _
  | cons k ks pre rest h' ih =>
      have heq : (pre ++ k ++ rest) ++ t = pre ++ k ++ (rest ++ t) := by
        simp [List.append_assoc]
      rw [heq]
      exact .cons k ks pre (rest ++ t) ih

/-- `encodeObj` produces no parts only for the empty dict. -/
theorem encodeObj_ok_nil (o : JObj) (h : encodeObj o = .ok []) : o = .nil := by
  cases o with
  | nil => rfl
  | cons k v tl =>
      exfalso
      cases hv : encodeVal v with
      | error e => simp [encodeObj, hv, Bind.bind, Except.bind] at h
      | ok s =>
          cases ht : encodeObj tl with
          | error e => simp [encodeObj, hv, ht, Bind.bind, Except.bind] at h
          | ok rest => simp [encodeObj, hv, ht, Bind.bind, Except.bind] at h

/-- The quoted keys of a dict occur in insertion order, as contiguous
blocks, in the comma-joined encoded entries. -/
theorem encodeObj_inorder (o : JObj) :
    ∀ parts, encodeObj o = .ok parts →
      InOrder (o.keys.map (pyJsonQuote false)) (pyJoin [','] parts) := by
  cases o with
  | nil =>
      intro parts h
      cases h
      exact .nil _
  | cons k v tl =>
      intro parts h
      cases hv : encodeVal v with
      | error e => simp [encodeObj, hv, Bind.bind, Except.bind] at h
      | ok s =>
          cases ht : encodeObj tl with
          | error e => simp [encodeObj, hv, ht, Bind.bind, Except.bind] at h
          | ok rest =>
              have hparts : parts = (pyJsonQuote false k ++ ':' :: s) :: rest := by
                simp [encodeObj, hv, ht, Bind.bind, Except.bind] at h
                exact h.symm
              subst hparts
              cases rest with
              | nil =>
                  have htl : tl = .nil := encodeObj_ok_nil tl ht
                  subst htl
                  have h0 : InOrder [pyJsonQuote false k]
                      ([] ++ pyJsonQuote false k ++ (':' :: s)) :=
                    .cons _ [] [] _ (.nil _)
                  simpa using h0
              | cons r rs =>
                  have hih := encodeObj_inorder tl (r :: rs) ht
                  have hrest :=
                    (hih.prepend [',']).prepend (':' :: s)
                  have h0 : InOrder
                      (pyJsonQuote false k :: (JObj.keys tl).map (pyJsonQuote false))
                      ([] ++ pyJsonQuote false k ++
                        ((':' :: s) ++ ([','] ++ pyJoin [','] (r :: rs)))) :=
                    .cons _ _ [] _ hrest
                  have hgoal : ([] : PyStr) ++ pyJsonQuote false k ++
                      ((':' :: s) ++ ([','] ++ pyJoin [','] (r :: rs))) =
                      pyJoin [','] ((pyJsonQuote false k ++ ':' :: s) :: r :: rs) := by
                    simp [pyJoin, List.append_assoc]
                  rw [hgoal] at h0
                  simpa [JObj.keys] using h0

/-! ## Lemmas: non-ASCII characters pass through literally -/

/-- Under `ensure_ascii = false`, every character at or above code point
128 is emitted unescaped. -/
theorem jsonEscapeChar_nonascii (c : Char) (h : 128 ≤ c.toNat) :
    jsonEscapeChar false c = [c] := by
  have h1 : ¬ c = '"' := by intro e; subst e; exact absurd h (by decide)
  have h2 : ¬ c = '\\' := by intro e; subst e; exact absurd h (by decide)
  have h3 : ¬ c = '\x08' := by intro e; subst e; exact absurd h (by decide)
  have h4 : ¬ c = '\x09' := by intro e; subst e; exact absurd h (by decide)
  have h5 : ¬ c = '\x0a' := by intro e; subst e; exact absurd h (by decide)
  have h6 : ¬ c = '\x0c' := by intro e; subst e; exact absurd h (by decide)
  have h7 : ¬ c = '\x0d' := by intro e; subst e; exact absurd h (by decide)
  have h8 : ¬ c.toNat < 32 := by omega
  simp [jsonEscapeChar, h1, h2, h3, h4, h5, h6, h7, h8]

/-- The strict encoder emits a non-ASCII character literally between the
quotes, never as an escape sequence. -/
theorem json_dumps_nonascii_literal (c : Char) (h : 128 ≤ c.toNat) :
    json_dumps (.str [c]) = .ok ['"', c, '"'] := by
  simp [json_dumps, encodeVal, pyJsonQuote, jsonEscapeChar_nonascii c h]

/-- C9: for all-finite payloads the strict encoder's output is
deterministic (it is a function of the payload) and compact: it contains
no whitespace beyond what the payload's own atoms carry, the quoted dict
keys occur in the output in insertion order, and non-ASCII characters are
emitted literally rather than as escape sequences. -/
theorem claim_C9_compact_ordered_literal :
    (∀ (v : JValue) (s : PyStr), wsFreeVal v = true → json_dumps v = .ok s →
       noWS s = true) ∧
    (∀ (fields : JObj) (s : PyStr), json_dumps (.obj fields) = .ok s →
       InOrder (fields.keys.map (pyJsonQuote false)) s) ∧
    (∀ c : Char, 128 ≤ c.toNat → json_dumps (.str [c]) = .ok ['"', c, '"']) := by
  refine ⟨?_, ?_, ?_⟩
  · intro v s hw h
    exact encodeVal_noWS v hw s h
  · intro fields s h
    cases hp : encodeObj fields with
    | error e => simp [json_dumps, encodeVal, hp, Bind.bind, Except.bind] at h
    | ok parts =>
        have hs : s = '\x7b' :: pyJoin [','] parts ++ ['\x7d'] := by
          simp [json_dumps, encodeVal, hp, Bind.bind, Except.bind] at h
          exact h.symm
        subst hs
        have h0 := ((encodeObj_inorder fields parts hp).prepend ['\x7b']).extend ['\x7d']
        simpa [List.append_assoc] using h0
  · exact fun c h => json_dumps_nonascii_literal c h

/-- Witness for C9 at a concrete two-field payload containing a non-ASCII
string value. -/
theorem claim_C9_witness :
    noWS "\x7b\"b\":1,\"a\":\"é\"\x7d".data = true ∧
    InOrder
      ((JObj.cons "b".data (JValue.int 1)
         (JObj.cons "a".data (JValue.str "é".data) .nil)).keys.map
        (pyJsonQuote false))
      "\x7b\"b\":1,\"a\":\"é\"\x7d".data ∧
    json_dumps (.str ['é']) = .ok ['"', 'é', '"'] :=
  ⟨claim_C9_compact_ordered_literal.1
     (.obj (.cons "b".data (.int 1) (.cons "a".data (.str "é".data) .nil)))
     "\x7b\"b\":1,\"a\":\"é\"\x7d".data (by decide) rfl,
   claim_C9_compact_ordered_literal.2.1
     (.cons "b".data (.int 1) (.cons "a".data (.str "é".data) .nil))
     "\x7b\"b\":1,\"a\":\"é\"\x7d".data rfl,
   claim_C9_compact_ordered_literal.2.2 'é' (by decide)⟩

end FakeGenesis
